import Mathlib

/-!
Formal model of `src/demo/query.py`: a demonstration script that runs five
fixed Cypher queries against a Neo4j property graph and collects each
response into a polars table.

The dataset the queries run against is an external property graph with node
labels `Person`, `City`, `State`, `Country`, `Interest` and relationship
types `LIVES_IN`, `CITY_IN`, `HAS_INTEREST`, `FOLLOWS` (plus the
State-to-Country containment edge used by the `-[*1..2]->` hops, mirrored by
`States.country_id` in the script's own SQL equivalents).  Nodes carry the
properties the query texts read (`p.age`, `p.gender`, `c.city`, `c.country`,
`s.state`, `s.country`, `co.country`, `i.interest`).

Each `run_queryN` is translated from the Cypher text it sends:
pattern matching becomes nested `flatMap`/`filter` over the node and edge
lists (one match row per instantiation of the pattern, as in Cypher),
`RETURN` with an aggregate groups rows by the non-aggregated return
expressions, `ORDER BY`/`LIMIT` become a sort and `take`, and Cypher's
`tolower` is ASCII lowercasing.  The Python layer around the queries is
modelled explicitly: `session.run` may fail (connection loss, bad
authentication, malformed query), `pl.from_dicts` fails on an empty row
sequence, and `main` chains the five calls with no exception handling.
-/

namespace NeoDemo

/-- A `Person` node: `p.age` and `p.gender` are the properties read by the
queries; `pid` identifies the node for edges. -/
structure Person where
  pid : Nat
  age : Int
  gender : String
  deriving DecidableEq, Repr

/-- A `City` node with properties `c.city` and `c.country` (query 3 reads a
denormalised `country` property directly off the city node). -/
structure City where
  cid : Nat
  city : String
  country : String
  deriving DecidableEq, Repr

/-- A `State` node with properties `s.state` and `s.country` (query 4 reads
`s.country` directly off the state node). -/
structure State where
  sid : Nat
  state : String
  country : String
  deriving DecidableEq, Repr

/-- A `Country` node with property `co.country`. -/
structure Country where
  coid : Nat
  country : String
  deriving DecidableEq, Repr

/-- An `Interest` node with property `i.interest`. -/
structure Interest where
  iid : Nat
  interest : String
  deriving DecidableEq, Repr

/-- The property graph the queries run against: node lists plus typed edge
lists (pairs of node identifiers).  `stateIn` is the State-to-Country
containment edge, mirrored by `States.country_id` in the script's SQL
equivalents. -/
structure Graph where
  persons : List Person
  cities : List City
  states : List State
  countries : List Country
  interests : List Interest
  livesIn : List (Nat × Nat)
  cityIn : List (Nat × Nat)
  stateIn : List (Nat × Nat)
  hasInterest : List (Nat × Nat)
  follows : List (Nat × Nat)
  deriving DecidableEq, Repr

/-- ASCII lowercasing of one character, as Cypher's `tolower` does. -/
def lowerChar (c : Char) : Char :=
  if 'A' ≤ c ∧ c ≤ 'Z' then Char.ofNat (c.toNat + 32) else c

/-- Cypher's `tolower` string function (ASCII lowercasing). -/
def tolower (s : String) : String := ⟨s.data.map lowerChar⟩

/-- Instantiations of the pattern `(p)-[:LIVES_IN]->(c:City)` for a fixed
person: the cities `p` lives in, with one entry per matching edge. -/
def citiesOf (g : Graph) (p : Person) : List City :=
  (g.livesIn.filter fun e => e.1 = p.pid).flatMap fun e =>
    g.cities.filter fun c => c.cid = e.2

/-- Instantiations of `(c)-[:CITY_IN]->(s:State)` for a fixed city. -/
def statesOf (g : Graph) (c : City) : List State :=
  (g.cityIn.filter fun e => e.1 = c.cid).flatMap fun e =>
    g.states.filter fun s => s.sid = e.2

/-- Instantiations of the State-to-Country containment edge for a fixed
state. -/
def countriesOf (g : Graph) (s : State) : List Country :=
  (g.stateIn.filter fun e => e.1 = s.sid).flatMap fun e =>
    g.countries.filter fun co => co.coid = e.2

/-- Instantiations of `(c:City)-[*1..2]->(co:Country)`: in this schema the
only paths of length 1 or 2 from a `City` node to a `Country` node go
`City -[:CITY_IN]-> State -> Country`, one entry per such path. -/
def cityCountries (g : Graph) (c : City) : List Country :=
  (statesOf g c).flatMap fun s => countriesOf g s

/-- Instantiations of `(p)-[:HAS_INTEREST]->(i:Interest)` for a fixed
person. -/
def interestsOf (g : Graph) (p : Person) : List Interest :=
  (g.hasInterest.filter fun e => e.1 = p.pid).flatMap fun e =>
    g.interests.filter fun i => i.iid = e.2

/-- Match rows of query 1's pattern
`(p:Person)-[:LIVES_IN]->(c:City)-[*1..2]->(co:Country)` filtered by
`co.country = $country`, projected to the variables the `RETURN` reads. -/
def query1Matches (g : Graph) (country : String) : List (Person × City) :=
  g.persons.flatMap fun p =>
    (citiesOf g p).flatMap fun c =>
      ((cityCountries g c).filter fun co => co.country = country).map fun _ => (p, c)

/-- Cypher's `avg(p.age)` over the match rows whose grouping key
(`c.city`) is `k`. -/
def avgAge (ms : List (Person × City)) (k : String) : Rat :=
  let ages := (ms.filter fun m => m.2.city = k).map fun m => (m.1.age : Rat)
  ages.sum / (ages.length : Rat)

/-- Ascending comparison on the `averageAge` column, for query 1's
`ORDER BY averageAge`. -/
def ratAsc (a b : String × Rat) : Prop := a.2 ≤ b.2

instance : DecidableRel ratAsc := fun a b => inferInstanceAs (Decidable (a.2 ≤ b.2))

instance : IsTotal (String × Rat) ratAsc := ⟨fun a b => le_total a.2 b.2⟩

instance : IsTrans (String × Rat) ratAsc := ⟨fun _ _ _ h h' => le_trans h h'⟩

/-- Rows collected from query 1's response: `c.city AS city,
avg(p.age) AS averageAge`, grouped by `city`, `ORDER BY averageAge LIMIT 5`. -/
def query1Rows (g : Graph) (country : String) : List (String × Rat) :=
  let ms := query1Matches g country
  let rows := ((ms.map fun m => m.2.city).dedup).map fun k => (k, avgAge ms k)
  (rows.insertionSort ratAsc).take 5

/-- Match rows of query 2's pattern
`(p:Person)-[:LIVES_IN]->(ci:City)-[*1..2]->(country:Country)` filtered by
`p.age >= $age_lower AND p.age <= $age_upper`. -/
def query2Matches (g : Graph) (lo hi : Int) : List (Person × Country) :=
  (g.persons.filter fun p => lo ≤ p.age ∧ p.age ≤ hi).flatMap fun p =>
    (citiesOf g p).flatMap fun c =>
      (cityCountries g c).map fun co => (p, co)

/-- Query 2's grouped aggregation before `ORDER BY`/`LIMIT`:
`country.country AS countries, count(country) AS personCounts`, one row per
distinct country name. -/
def query2Groups (g : Graph) (lo hi : Int) : List (String × Nat) :=
  let ms := query2Matches g lo hi
  ((ms.map fun m => m.2.country).dedup).map fun k =>
    (k, (ms.filter fun m => m.2.country = k).length)

/-- Descending comparison on the `personCounts` column, for query 2's
`ORDER BY personCounts DESC`. -/
def natDesc (a b : String × Nat) : Prop := b.2 ≤ a.2

instance : DecidableRel natDesc := fun a b => inferInstanceAs (Decidable (b.2 ≤ a.2))

instance : IsTotal (String × Nat) natDesc := ⟨fun a b => (le_total a.2 b.2).symm⟩

instance : IsTrans (String × Nat) natDesc := ⟨fun _ _ _ h h' => le_trans h' h⟩

/-- Rows collected from query 2's response:
`ORDER BY personCounts DESC LIMIT 3` applied to the grouped counts. -/
def query2Rows (g : Graph) (lo hi : Int) : List (String × Nat) :=
  ((query2Groups g lo hi).insertionSort natDesc).take 3

/-- Query 3's `count(p)`: match rows of
`(p)-[:HAS_INTEREST]->(i)` with `tolower(i.interest) = tolower($interest)`
and `tolower(p.gender) = tolower($gender)`, extended by
`(p)-[:LIVES_IN]->(c:City)` with `c.city = $city AND c.country = $country`. -/
def query3Count (g : Graph) (gender city country interest : String) : Nat :=
  ((g.persons.filter fun p => tolower p.gender = tolower gender).flatMap fun p =>
    ((interestsOf g p).filter fun i => tolower i.interest = tolower interest).flatMap fun i =>
      ((citiesOf g p).filter fun c => c.city = city ∧ c.country = country).map fun c =>
        (p, i, c)).length

/-- Rows collected from query 3's response: an ungrouped `count(p)` always
yields exactly one row. -/
def query3Rows (g : Graph) (gender city country interest : String) : List Nat :=
  [query3Count g gender city country interest]

/-- Match rows of query 4's pattern:
`(p:Person)-[:LIVES_IN]->(:City)-[:CITY_IN]->(s:State)` filtered by the age
range and `s.country = $country`, carried through `WITH p, s` and extended by
`(p)-[:HAS_INTEREST]->(i)` with `tolower(i.interest) = tolower($interest)`,
projected to the variables the `RETURN` reads. -/
def query4Matches (g : Graph) (country : String) (lo hi : Int) (interest : String) :
    List (Person × State) :=
  (g.persons.filter fun p => lo ≤ p.age ∧ p.age ≤ hi).flatMap fun p =>
    ((citiesOf g p).flatMap fun c => (statesOf g c).filter fun s => s.country = country).flatMap
      fun s =>
        ((interestsOf g p).filter fun i => tolower i.interest = tolower interest).map fun _ =>
          (p, s)

/-- Query 4's grouped aggregation before `ORDER BY`/`LIMIT`:
`count(p) AS numPersons, s.state AS state, s.country AS country`, one row per
distinct `(s.state, s.country)` pair. -/
def query4Groups (g : Graph) (country : String) (lo hi : Int) (interest : String) :
    List (Nat × String × String) :=
  let ms := query4Matches g country lo hi interest
  ((ms.map fun m => (m.2.state, m.2.country)).dedup).map fun k =>
    ((ms.filter fun m => (m.2.state, m.2.country) = k).length, k.1, k.2)

/-- Descending comparison on the `numPersons` column, for query 4's
`ORDER BY numPersons DESC`. -/
def cntDesc (a b : Nat × String × String) : Prop := b.1 ≤ a.1

instance : DecidableRel cntDesc := fun a b => inferInstanceAs (Decidable (b.1 ≤ a.1))

instance : IsTotal (Nat × String × String) cntDesc := ⟨fun a b => (le_total a.1 b.1).symm⟩

instance : IsTrans (Nat × String × String) cntDesc := ⟨fun _ _ _ h h' => le_trans h' h⟩

/-- Rows collected from query 4's response:
`ORDER BY numPersons DESC LIMIT 1` applied to the grouped counts. -/
def query4Rows (g : Graph) (country : String) (lo hi : Int) (interest : String) :
    List (Nat × String × String) :=
  ((query4Groups g country lo hi interest).insertionSort cntDesc).take 1

/-- Query 5's `count(*)` over
`(a:Person)-[r1:FOLLOWS]->(b:Person)-[r2:FOLLOWS]->(c:Person)`.  Cypher
never binds the same relationship to both `r1` and `r2` within one match, so
the two `FOLLOWS` edges are identified by their (distinct) positions in the
edge list. -/
def query5Count (g : Graph) : Nat :=
  (g.persons.flatMap fun a =>
    (g.follows.enum.filter fun e1 => e1.2.1 = a.pid).flatMap fun e1 =>
      (g.persons.filter fun b => b.pid = e1.2.2).flatMap fun b =>
        (g.follows.enum.filter fun e2 => ¬e2.1 = e1.1 ∧ e2.2.1 = b.pid).flatMap fun e2 =>
          (g.persons.filter fun c => c.pid = e2.2.2).map fun c => (a, e1, b, e2, c)).length

/-- Rows collected from query 5's response: an ungrouped `count(*)` always
yields exactly one row. -/
def query5Rows (g : Graph) : List Nat := [query5Count g]

/-- Failures that can surface while the script runs: the driver's failures
on `session.run` and polars' `NoDataError`. -/
inductive PyError where
  | connectionError
  | authFailure
  | malformedQuery
  | polarsNoData
  deriving DecidableEq, Repr

/-- Model of `pl.from_dicts(response.data())`: polars cannot infer a schema
from an empty row sequence and raises `NoDataError`; on a non-empty sequence
it returns the table of rows. -/
def from_dicts {α : Type} (rows : List α) : Except PyError (List α) :=
  if rows.isEmpty then .error .polarsNoData else .ok rows

/-- A database session: the graph the queries run against, together with a
possible failure of each of the five `session.run` calls (connection loss,
authentication failure, malformed query). -/
structure Session where
  graph : Graph
  fail1 : Option PyError
  fail2 : Option PyError
  fail3 : Option PyError
  fail4 : Option PyError
  fail5 : Option PyError
  deriving Repr

/-- A session over `g` in which every `session.run` call succeeds. -/
def plainSession (g : Graph) : Session :=
  ⟨g, none, none, none, none, none⟩

/-- Python's `run_query1`: send query 1, collect the response into a polars
table, and return it.  A driver failure propagates (the body has no
`try`/`except`). -/
def run_query1 (s : Session) (country : String) : Except PyError (List (String × Rat)) :=
  match s.fail1 with
  | some e => .error e
  | none => from_dicts (query1Rows s.graph country)

/-- Python's `run_query2`, as `run_query1`. -/
def run_query2 (s : Session) (lo hi : Int) : Except PyError (List (String × Nat)) :=
  match s.fail2 with
  | some e => .error e
  | none => from_dicts (query2Rows s.graph lo hi)

/-- Python's `run_query3`, as `run_query1`. -/
def run_query3 (s : Session) (gender city country interest : String) :
    Except PyError (List Nat) :=
  match s.fail3 with
  | some e => .error e
  | none => from_dicts (query3Rows s.graph gender city country interest)

/-- Python's `run_query4`, as `run_query1`. -/
def run_query4 (s : Session) (country : String) (lo hi : Int) (interest : String) :
    Except PyError (List (Nat × String × String)) :=
  match s.fail4 with
  | some e => .error e
  | none => from_dicts (query4Rows s.graph country lo hi interest)

/-- Python's `run_query5`, as `run_query1`. -/
def run_query5 (s : Session) : Except PyError (List Nat) :=
  match s.fail5 with
  | some e => .error e
  | none => from_dicts (query5Rows s.graph)

/-- Python's `main`: the five query calls in sequence with the script's
literal arguments; any uncaught failure aborts the rest. -/
def main (s : Session) : Except PyError Unit := do
  let _ ← run_query1 s "United States"
  let _ ← run_query2 s 30 40
  let _ ← run_query3 s "male" "London" "United Kingdom" "fine dining"
  let _ ← run_query4 s "United States" 23 30 "photography"
  let _ ← run_query5 s
  pure ()

/-- Exit status of the process: 0 on normal completion, 1 when an uncaught
exception terminates the interpreter. -/
def exitCode (r : Except PyError Unit) : Nat :=
  match r with
  | .ok _ => 0
  | .error _ => 1

/-- A small concrete dataset used to evaluate the queries: three persons,
two cities, two states, two countries, two interests, and a two-edge
`FOLLOWS` chain 1 → 2 → 3. -/
def gW : Graph where
  persons := [⟨1, 25, "male"⟩, ⟨2, 35, "female"⟩, ⟨3, 28, "male"⟩]
  cities := [⟨1, "London", "United Kingdom"⟩, ⟨2, "Austin", "United States"⟩]
  states := [⟨1, "Texas", "United States"⟩, ⟨2, "Greater London", "United Kingdom"⟩]
  countries := [⟨1, "United States"⟩, ⟨2, "United Kingdom"⟩]
  interests := [⟨1, "Fine Dining"⟩, ⟨2, "Photography"⟩]
  livesIn := [(1, 2), (2, 2), (3, 1)]
  cityIn := [(2, 1), (1, 2)]
  stateIn := [(1, 1), (2, 2)]
  hasInterest := [(1, 2), (3, 1)]
  follows := [(1, 2), (2, 3)]

/-- Three persons and no relationships at all: in particular, zero
`FOLLOWS` edges. -/
def gNoFollows : Graph where
  persons := [⟨1, 20, "male"⟩, ⟨2, 30, "female"⟩, ⟨3, 40, "male"⟩]
  cities := []
  states := []
  countries := []
  interests := []
  livesIn := []
  cityIn := []
  stateIn := []
  hasInterest := []
  follows := []

/-- Three persons whose only edges form the simple `FOLLOWS` chain
1 → 2 → 3. -/
def gChain : Graph where
  persons := [⟨1, 20, "male"⟩, ⟨2, 30, "female"⟩, ⟨3, 40, "male"⟩]
  cities := []
  states := []
  countries := []
  interests := []
  livesIn := []
  cityIn := []
  stateIn := []
  hasInterest := []
  follows := [(1, 2), (2, 3)]

/-! ## Helper lemmas about the sort/limit and group/count combinators -/

lemma mem_of_mem_sortTake {α : Type} {r : α → α → Prop} [DecidableRel r] {l : List α}
    {n : Nat} {x : α} (h : x ∈ (l.insertionSort r).take n) : x ∈ l :=
  (List.perm_insertionSort r l).mem_iff.1 (List.mem_of_mem_take h)

lemma sorted_sortTake {α : Type} (r : α → α → Prop) [DecidableRel r] [IsTotal α r]
    [IsTrans α r] (l : List α) (n : Nat) : List.Sorted r ((l.insertionSort r).take n) :=
  (List.sorted_insertionSort r l).sublist (List.take_sublist n _)

lemma length_sortTake {α : Type} (r : α → α → Prop) [DecidableRel r] (l : List α)
    (n : Nat) : ((l.insertionSort r).take n).length ≤ n :=
  List.length_take_le n _

lemma length_filter_key_eq_count {α κ : Type} [DecidableEq κ] (kf : α → κ) (ms : List α)
    (k : κ) : (ms.filter fun m => kf m = k).length = (ms.map kf).count k := by
  induction ms with
  | nil => rfl
  | cons a t ih =>
    by_cases h : kf a = k <;>
      simp [List.filter_cons, List.count_cons, h, ih, beq_iff_eq]

lemma sum_group_lengths {α κ : Type} [DecidableEq κ] (kf : α → κ) (ms : List α) :
    (((ms.map kf).dedup).map fun k => (ms.filter fun m => kf m = k).length).sum =
      ms.length := by
  rw [List.map_congr_left fun k _ => length_filter_key_eq_count kf ms k,
    List.sum_map_count_dedup_eq_length, List.length_map]

lemma sum_map_one {α : Type} (l : List α) : (l.map fun _ => (1 : Nat)).sum = l.length := by
  induction l with
  | nil => rfl
  | cons a t ih => simp [ih, Nat.add_comm]

/-! ## Helper lemmas about pattern-match membership -/

lemma mem_cities_of_mem_citiesOf {g : Graph} {p : Person} {c : City}
    (h : c ∈ citiesOf g p) : c ∈ g.cities := by
  simp only [citiesOf, List.mem_flatMap, List.mem_filter, decide_eq_true_eq] at h
  obtain ⟨e, -, hc, -⟩ := h
  exact hc

lemma chain_of_mem_cityCountries {g : Graph} {c : City} {co : Country}
    (h : co ∈ cityCountries g c) :
    co ∈ g.countries ∧ ∃ s ∈ g.states,
      (c.cid, s.sid) ∈ g.cityIn ∧ (s.sid, co.coid) ∈ g.stateIn := by
  simp only [cityCountries, statesOf, countriesOf, List.mem_flatMap, List.mem_filter,
    decide_eq_true_eq] at h
  obtain ⟨s, ⟨e2, ⟨he2, he2c⟩, hs, hss⟩, e3, ⟨he3, he3s⟩, hco, hcoid⟩ := h
  refine ⟨hco, s, hs, ?_, ?_⟩
  · have he : (c.cid, s.sid) = e2 := by cases e2; simp_all
    rw [he]; exact he2
  · have he : (s.sid, co.coid) = e3 := by cases e3; simp_all
    rw [he]; exact he3

/-! ## Claim theorems -/

/-- C1: for every country parameter, the rows `run_query1` collects from
query 1's response are at most 5, sorted ascending by `averageAge`, and every
returned city's containment chain (city to state to country) resolves to the
given country. -/
theorem run_query1_spec (g : Graph) (country : String) :
    (query1Rows g country).length ≤ 5 ∧
    List.Sorted ratAsc (query1Rows g country) ∧
    ∀ row ∈ query1Rows g country,
      ∃ c ∈ g.cities, c.city = row.1 ∧ ∃ s ∈ g.states, ∃ co ∈ g.countries,
        (c.cid, s.sid) ∈ g.cityIn ∧ (s.sid, co.coid) ∈ g.stateIn ∧
        co.country = country := by
  refine ⟨length_sortTake _ _ _, sorted_sortTake _ _ _, ?_⟩
  intro row hrow
  have hmem := mem_of_mem_sortTake (r := ratAsc) hrow
  obtain ⟨k, hk, rfl⟩ := List.mem_map.1 hmem
  have hk' := List.mem_dedup.1 hk
  obtain ⟨m, hm, rfl⟩ := List.mem_map.1 hk'
  simp only [query1Matches, List.mem_flatMap, List.mem_map, List.mem_filter,
    decide_eq_true_eq] at hm
  obtain ⟨p, hp, c, hc, co, ⟨hcoMem, hcoCountry⟩, heq⟩ := hm
  obtain ⟨hco, s, hs, hedge1, hedge2⟩ := chain_of_mem_cityCountries hcoMem
  have hcm := mem_cities_of_mem_citiesOf hc
  have hc2 : m.2 = c := by rw [← heq]
  exact ⟨c, hcm, by rw [hc2], s, hs, co, hco, hedge1, hedge2, hcoCountry⟩

/-- C2: for every age range with `age_lower ≤ age_upper`, on a dataset where
every person has exactly one residence chain (person to city to state to
country, as the schema's foreign keys guarantee), the rows `run_query2`
collects are at most 3, sorted descending by `personCounts`, and the
per-country counts over all countries (before the `LIMIT 3`) sum to the
number of persons whose age lies in the inclusive range. -/
theorem run_query2_spec (g : Graph) (lo hi : Int) (hle : lo ≤ hi)
    (hwf : ∀ p ∈ g.persons, ((citiesOf g p).flatMap fun c => cityCountries g c).length = 1) :
    (query2Rows g lo hi).length ≤ 3 ∧
    List.Sorted natDesc (query2Rows g lo hi) ∧
    ((query2Groups g lo hi).map Prod.snd).sum =
      (g.persons.filter fun p => lo ≤ p.age ∧ p.age ≤ hi).length := by
  refine ⟨length_sortTake _ _ _, sorted_sortTake _ _ _, ?_⟩
  have h1 : ((query2Groups g lo hi).map Prod.snd) =
      (((query2Matches g lo hi).map fun m => m.2.country).dedup).map
        fun k => ((query2Matches g lo hi).filter fun m => m.2.country = k).length := by
    simp [query2Groups, List.map_map, Function.comp]
  rw [h1, sum_group_lengths]
  rw [query2Matches, List.length_flatMap]
  simp only [Function.comp_def]
  have h2 : ∀ p ∈ (g.persons.filter fun p => lo ≤ p.age ∧ p.age ≤ hi),
      ((citiesOf g p).flatMap fun c => (cityCountries g c).map fun co => (p, co)).length
        = 1 := by
    intro p hp
    have hw := hwf p (List.mem_filter.1 hp).1
    calc ((citiesOf g p).flatMap fun c => (cityCountries g c).map fun co => (p, co)).length
        = ((citiesOf g p).flatMap fun c => cityCountries g c).length := by
          simp [List.length_flatMap, List.length_map, Function.comp_def]
      _ = 1 := hw
  rw [List.map_congr_left h2, sum_map_one]

/-- C2 witness: query 2 at the spec's example range 30–40 on the concrete
dataset `gW`, whose residence chains are unique. -/
theorem run_query2_spec_witness :
    ((30 : Int) ≤ 40 ∧
      ∀ p ∈ gW.persons, ((citiesOf gW p).flatMap fun c => cityCountries gW c).length = 1) ∧
    ((query2Rows gW 30 40).length ≤ 3 ∧
      List.Sorted natDesc (query2Rows gW 30 40) ∧
      ((query2Groups gW 30 40).map Prod.snd).sum =
        (gW.persons.filter fun p => (30 : Int) ≤ p.age ∧ p.age ≤ 40).length) :=
  ⟨⟨by decide, by decide⟩, run_query2_spec gW 30 40 (by decide) (by decide)⟩

/-- C3: `run_query3` is case-insensitive in its gender and interest
parameters: for any session and any two gender strings and two interest
strings equal up to letter case, the two calls return the same single-row
`numPersons` result. -/
theorem run_query3_case_insensitive (s : Session) (g1 g2 city country i1 i2 : String)
    (hg : tolower g1 = tolower g2) (hint : tolower i1 = tolower i2) :
    run_query3 s g1 city country i1 = run_query3 s g2 city country i2 := by
  have hcnt : query3Count s.graph g1 city country i1 =
      query3Count s.graph g2 city country i2 := by
    simp only [query3Count, hg, hint]
  simp only [run_query3, query3Rows, hcnt]

/-- C3 witness: the spec's own example pair of calls on the concrete
dataset `gW`. -/
theorem run_query3_case_insensitive_witness :
    (tolower "MALE" = tolower "male" ∧ tolower "Fine Dining" = tolower "fine dining") ∧
    run_query3 (plainSession gW) "MALE" "London" "United Kingdom" "Fine Dining" =
      run_query3 (plainSession gW) "male" "London" "United Kingdom" "fine dining" :=
  ⟨⟨by decide, by decide⟩,
    run_query3_case_insensitive (plainSession gW) "MALE" "male" "London" "United Kingdom"
      "Fine Dining" "fine dining" (by decide) (by decide)⟩

/-- C4: for every country, age range and interest, query 4 yields zero rows
when no person matches the filter; when some person matches, `run_query4`
returns exactly one row, and that row's `numPersons` is at least the match
count of every state of that country under the same filter. -/
theorem run_query4_spec (g : Graph) (country : String) (lo hi : Int) (interest : String) :
    (query4Matches g country lo hi interest = [] →
      query4Rows g country lo hi interest = []) ∧
    (query4Matches g country lo hi interest ≠ [] →
      ∃ r, query4Rows g country lo hi interest = [r] ∧
        run_query4 (plainSession g) country lo hi interest = .ok [r] ∧
        ∀ s ∈ g.states, s.country = country →
          ((query4Matches g country lo hi interest).filter fun m => m.2 = s).length ≤
            r.1) := by
  constructor
  · intro h
    simp [query4Rows, query4Groups, h]
  · intro h
    set ms := query4Matches g country lo hi interest with hms
    set rows := query4Groups g country lo hi interest with hrows
    have hrowseq : rows = ((ms.map fun m => (m.2.state, m.2.country)).dedup).map
        fun k => ((ms.filter fun m => (m.2.state, m.2.country) = k).length, k.1, k.2) := by
      rw [hrows, query4Groups]
    have hrowsne : rows ≠ [] := by
      rw [hrowseq]
      intro hnil
      rw [List.map_eq_nil_iff, List.dedup_eq_nil, List.map_eq_nil_iff] at hnil
      exact h hnil
    have hperm := List.perm_insertionSort cntDesc rows
    have hsortne : rows.insertionSort cntDesc ≠ [] := by
      intro hnil
      apply hrowsne
      rw [← List.length_eq_zero, ← hperm.length_eq, hnil]
      rfl
    obtain ⟨r, rest, hcons⟩ : ∃ r rest, rows.insertionSort cntDesc = r :: rest := by
      rcases hsort : rows.insertionSort cntDesc with - | ⟨a, t⟩
      · exact absurd hsort hsortne
      · exact ⟨a, t, rfl⟩
    have htake : query4Rows g country lo hi interest = [r] := by
      have hq : query4Rows g country lo hi interest =
          (rows.insertionSort cntDesc).take 1 := rfl
      rw [hq, hcons]
      rfl
    refine ⟨r, htake, ?_, ?_⟩
    · simp [run_query4, plainSession, from_dicts, htake]
    · intro s hs hsc
      by_cases hzero : (ms.filter fun m => m.2 = s) = []
      · simp [hzero]
      · obtain ⟨m, hmfil⟩ := List.exists_mem_of_ne_nil _ hzero
        have hmms : m ∈ ms := (List.mem_filter.1 hmfil).1
        have hmkey : m.2 = s := by
          have := (List.mem_filter.1 hmfil).2
          simpa using this
        have hkey : (s.state, s.country) ∈ (ms.map fun m => (m.2.state, m.2.country)).dedup := by
          rw [List.mem_dedup]
          exact List.mem_map.2 ⟨m, hmms, by rw [hmkey]⟩
        have hrowmem :
            ((ms.filter fun m' => (m'.2.state, m'.2.country) = (s.state, s.country)).length,
              s.state, s.country) ∈ rows := by
          rw [hrowseq]
          exact List.mem_map.2 ⟨(s.state, s.country), hkey, rfl⟩
        have hx :
            ((ms.filter fun m' => (m'.2.state, m'.2.country) = (s.state, s.country)).length,
              s.state, s.country) ∈ r :: rest := by
          rw [← hcons]
          exact hperm.mem_iff.2 hrowmem
        have hsorted : List.Sorted cntDesc (r :: rest) := by
          rw [← hcons]
          exact List.sorted_insertionSort cntDesc rows
        have hle2 :
            ((ms.filter fun m' => (m'.2.state, m'.2.country) = (s.state, s.country)).length,
              s.state, s.country).1 ≤ r.1 := by
          rcases List.mem_cons.1 hx with hx | hx
          · rw [hx]
          · exact List.rel_of_sorted_cons hsorted _ hx
        have hmono : (ms.filter fun m' => m'.2 = s).length ≤
            (ms.filter fun m' => (m'.2.state, m'.2.country) = (s.state, s.country)).length := by
          rw [← List.countP_eq_length_filter, ← List.countP_eq_length_filter]
          refine List.countP_mono_left ?_
          intro m' _ hd
          simp only [decide_eq_true_eq] at hd ⊢
          rw [hd]
        exact le_trans hmono hle2

/-- C5: query 5 counts length-2 directed `FOLLOWS` chains: on a graph with
zero `FOLLOWS` edges `run_query5` returns the single row `numPaths = 0`, and
on a graph whose only edges form the simple chain 1 → 2 → 3 it returns the
single row `numPaths = 1`. -/
theorem run_query5_chains :
    run_query5 (plainSession gNoFollows) = .ok [0] ∧
    run_query5 (plainSession gChain) = .ok [1] := by
  constructor <;> rfl

/-- C6: every one of the five query runners is deterministic over an
unchanged dataset: two runs of the same runner with identical parameters on
the same session return identical results, including row order. -/
theorem queries_deterministic (s : Session) (country gender city interest : String)
    (lo hi : Int) :
    run_query1 s country = run_query1 s country ∧
    run_query2 s lo hi = run_query2 s lo hi ∧
    run_query3 s gender city country interest = run_query3 s gender city country interest ∧
    run_query4 s country lo hi interest = run_query4 s country lo hi interest ∧
    run_query5 s = run_query5 s :=
  ⟨rfl, rfl, rfl, rfl, rfl⟩

/-! ## Helper lemmas about the runner and script layer -/

lemma ok_of_bind_ok {α β : Type} {x : Except PyError α} {f : α → Except PyError β} {b : β}
    (h : (x >>= f) = .ok b) : ∃ a, x = .ok a ∧ f a = .ok b := by
  cases x with
  | error e => exact Except.noConfusion (show Except.error e = Except.ok b from h)
  | ok a => exact ⟨a, rfl, show f a = .ok b from h⟩

lemma run_query1_ok {s : Session} {country : String} {t : List (String × Rat)}
    (h : run_query1 s country = .ok t) :
    s.fail1 = none ∧ t = query1Rows s.graph country := by
  rcases h1 : s.fail1 with - | e1
  · simp only [run_query1, h1, from_dicts] at h
    split_ifs at h with he
    cases h
    exact ⟨rfl, rfl⟩
  · simp only [run_query1, h1] at h
    exact absurd h (by simp)

lemma run_query2_ok {s : Session} {lo hi : Int} {t : List (String × Nat)}
    (h : run_query2 s lo hi = .ok t) :
    s.fail2 = none ∧ t = query2Rows s.graph lo hi := by
  rcases h1 : s.fail2 with - | e1
  · simp only [run_query2, h1, from_dicts] at h
    split_ifs at h with he
    cases h
    exact ⟨rfl, rfl⟩
  · simp only [run_query2, h1] at h
    exact absurd h (by simp)

lemma run_query3_ok {s : Session} {gender city country interest : String} {t : List Nat}
    (h : run_query3 s gender city country interest = .ok t) :
    s.fail3 = none ∧ t = query3Rows s.graph gender city country interest := by
  rcases h1 : s.fail3 with - | e1
  · simp only [run_query3, h1, from_dicts] at h
    split_ifs at h with he
    cases h
    exact ⟨rfl, rfl⟩
  · simp only [run_query3, h1] at h
    exact absurd h (by simp)

lemma run_query4_ok {s : Session} {country : String} {lo hi : Int} {interest : String}
    {t : List (Nat × String × String)}
    (h : run_query4 s country lo hi interest = .ok t) :
    s.fail4 = none ∧ t = query4Rows s.graph country lo hi interest := by
  rcases h1 : s.fail4 with - | e1
  · simp only [run_query4, h1, from_dicts] at h
    split_ifs at h with he
    cases h
    exact ⟨rfl, rfl⟩
  · simp only [run_query4, h1] at h
    exact absurd h (by simp)

lemma run_query5_ok {s : Session} {t : List Nat}
    (h : run_query5 s = .ok t) :
    s.fail5 = none ∧ t = query5Rows s.graph := by
  rcases h1 : s.fail5 with - | e1
  · simp only [run_query5, h1, from_dicts] at h
    split_ifs at h with he
    cases h
    exact ⟨rfl, rfl⟩
  · simp only [run_query5, h1] at h
    exact absurd h (by simp)

lemma main_ok_no_failures {s : Session} (h : main s = .ok ()) :
    s.fail1 = none ∧ s.fail2 = none ∧ s.fail3 = none ∧ s.fail4 = none ∧
      s.fail5 = none := by
  rw [main] at h
  obtain ⟨a1, hA1, h⟩ := ok_of_bind_ok h
  obtain ⟨a2, hA2, h⟩ := ok_of_bind_ok h
  obtain ⟨a3, hA3, h⟩ := ok_of_bind_ok h
  obtain ⟨a4, hA4, h⟩ := ok_of_bind_ok h
  obtain ⟨a5, hA5, h⟩ := ok_of_bind_ok h
  exact ⟨(run_query1_ok hA1).1, (run_query2_ok hA2).1, (run_query3_ok hA3).1,
    (run_query4_ok hA4).1, (run_query5_ok hA5).1⟩

/-- C7: a failure of any of the five `session.run` calls propagates uncaught:
the failing runner returns that same distinct failure (no catch, no retry, no
partial result), and `main` then terminates with an error and a non-zero exit
status. -/
theorem failures_propagate (s : Session) (e : PyError)
    (country gender city interest : String) (lo hi : Int) :
    (s.fail1 = some e → run_query1 s country = .error e) ∧
    (s.fail2 = some e → run_query2 s lo hi = .error e) ∧
    (s.fail3 = some e → run_query3 s gender city country interest = .error e) ∧
    (s.fail4 = some e → run_query4 s country lo hi interest = .error e) ∧
    (s.fail5 = some e → run_query5 s = .error e) ∧
    ((s.fail1 ≠ none ∨ s.fail2 ≠ none ∨ s.fail3 ≠ none ∨ s.fail4 ≠ none ∨
        s.fail5 ≠ none) →
      ∃ e2, main s = .error e2 ∧ exitCode (main s) ≠ 0) := by
  refine ⟨fun h => by simp [run_query1, h], fun h => by simp [run_query2, h],
    fun h => by simp [run_query3, h], fun h => by simp [run_query4, h],
    fun h => by simp [run_query5, h], ?_⟩
  intro hd
  rcases hm : main s with e2 | u
  · refine ⟨e2, ?_, ?_⟩
    · simp [hm]
    · simp [exitCode, hm]
  · exfalso
    cases u
    obtain ⟨n1, n2, n3, n4, n5⟩ := main_ok_no_failures hm
    rcases hd with d | d | d | d | d
    · exact d n1
    · exact d n2
    · exact d n3
    · exact d n4
    · exact d n5

/-- C8: query 3 compares its city and country parameters by exact string
equality, unlike gender and interest: on the dataset `gW`, changing only the
letter case of the city (or of the country) changes the returned
`numPersons`. -/
theorem run_query3_city_case_sensitive :
    run_query3 (plainSession gW) "male" "London" "United Kingdom" "fine dining" = .ok [1] ∧
    run_query3 (plainSession gW) "male" "LONDON" "United Kingdom" "fine dining" = .ok [0] ∧
    run_query3 (plainSession gW) "male" "London" "UNITED KINGDOM" "fine dining" = .ok [0] :=
  ⟨rfl, rfl, rfl⟩

/-- C9: a query that yields zero result rows does not produce an empty
table: `pl.from_dicts` fails on an empty row sequence, so `run_query4` (and
likewise `run_query1`) terminates with an error instead of returning a
zero-row result, and a successful `run_query4` never returns an empty
table. -/
theorem empty_result_raises (g : Graph) (country : String) (lo hi : Int)
    (interest : String) :
    (query4Rows g country lo hi interest = [] →
      run_query4 (plainSession g) country lo hi interest = .error .polarsNoData) ∧
    (query1Rows g country = [] →
      run_query1 (plainSession g) country = .error .polarsNoData) ∧
    (∀ t, run_query4 (plainSession g) country lo hi interest = .ok t → t ≠ []) := by
  refine ⟨fun h => by simp [run_query4, plainSession, from_dicts, h],
    fun h => by simp [run_query1, plainSession, from_dicts, h], ?_⟩
  intro t ht hnil
  have h2 := (run_query4_ok ht).2
  rw [hnil] at h2
  have h2n : query4Rows g country lo hi interest = [] := by
    simpa [plainSession] using h2.symm
  have h3 : run_query4 (plainSession g) country lo hi interest = .error .polarsNoData := by
    simp [run_query4, plainSession, from_dicts, h2n]
  rw [h3] at ht
  exact Except.noConfusion ht

/-- C10: despite the Python functions' declared `None` return type, every
successful `run_queryN` call returns the table collected from the query
response (never a `None`-like empty outcome): an `ok` result is exactly the
collected rows. -/
theorem runners_return_table (s : Session) (country gender city interest : String)
    (lo hi : Int) :
    (∀ t, run_query1 s country = .ok t → t = query1Rows s.graph country) ∧
    (∀ t, run_query2 s lo hi = .ok t → t = query2Rows s.graph lo hi) ∧
    (∀ t, run_query3 s gender city country interest = .ok t →
      t = query3Rows s.graph gender city country interest) ∧
    (∀ t, run_query4 s country lo hi interest = .ok t →
      t = query4Rows s.graph country lo hi interest) ∧
    (∀ t, run_query5 s = .ok t → t = query5Rows s.graph) :=
  ⟨fun _ h => (run_query1_ok h).2, fun _ h => (run_query2_ok h).2,
    fun _ h => (run_query3_ok h).2, fun _ h => (run_query4_ok h).2,
    fun _ h => (run_query5_ok h).2⟩

end NeoDemo
